import Mathlib

/-!
Shallow embedding of the load-generation / statistics-aggregation core of
`tests/test_scaling.py` (the scaling and concurrency test harness).

Modelling conventions:
* Python floats are modelled as `ℚ` (exact arithmetic; every operation the
  code performs — `+`, `-`, `*`, `/`, comparisons, `sorted`, `min`, `max`,
  `int(...)` truncation — is exact on the sample values the claims discuss).
* Python `int(x)` truncates toward zero: `pyInt`.
* Python `sorted(xs)` (stable ascending sort) is modelled by
  `List.insertionSort (· ≤ ·)`; on `ℚ` any ascending stable sort produces
  this exact list.
* Network and clock effects are abstracted into explicit environment
  records (`HttpEnv`, `WsEnv`, `CellEnv`): every `time.perf_counter()`
  reading that the code stores is a field of a `…Times` record, an
  exception raised by an awaited operation is a `PyErr` (its Python class
  name and `str(e)` message), and a parsed JSON response is an `Obs` /
  `WsMsg` value.  The Python `try/except` that converts any exception into
  a failed record becomes ordinary branching on the environment; the one
  statement that raises *outside* any `try` (`ws_session`'s
  `ImportError` when the websockets module is missing) is modelled with
  `Except`.
* `now_iso()` (a wall-clock timestamp string) is passed in through the
  environment for the session drivers and modelled as `""` in
  `compute_summary`; no claim depends on timestamps.
* `asyncio.gather(*tasks)` returns the results of all tasks in launch
  order; the batch runners therefore map the session driver over
  `List.range n`.
-/

/-- Python `int(x)`: truncation toward zero. -/
def pyInt (q : ℚ) : ℤ := if 0 ≤ q then ⌊q⌋ else ⌈q⌉

/-- Python `min(xs)` over a list (`0` supplied for the empty list, on which
the Python builtin raises; it is only applied to non-empty lists). -/
def pyMin (l : List ℚ) : ℚ :=
  match l with
  | [] => 0
  | x :: xs => xs.foldl min x

/-- Python `max(xs)` over a list (`0` supplied for the empty list). -/
def pyMax (l : List ℚ) : ℚ :=
  match l with
  | [] => 0
  | x :: xs => xs.foldl max x

/-- Python `statistics.mean(xs)` (`0` for the empty list via `0/0 = 0` in `ℚ`). -/
def pyMean (l : List ℚ) : ℚ := l.sum / (l.length : ℚ)

/-- Python `sorted(data)`: ascending stable sort. -/
def pySorted (data : List ℚ) : List ℚ := List.insertionSort (· ≤ ·) data

/-- `percentile(data, p)` from `tests/test_scaling.py`:
```
if not data: return 0.0
sorted_data = sorted(data)
k = (len(sorted_data) - 1) * p / 100
f = int(k)
c = min(f + 1, len(sorted_data) - 1)
return sorted_data[f] + (k - f) * (sorted_data[c] - sorted_data[f])
```
List indexing is rendered with `getD _ 0`; the bounds claim
(`percentileInBounds`) shows the indices are genuine indices on the
domain the callers use, so `getD` agrees with Python indexing there. -/
def percentile (data : List ℚ) (p : ℚ) : ℚ :=
  if data.isEmpty then 0
  else
    let sorted_data := pySorted data
    let k : ℚ := ((sorted_data.length : ℚ) - 1) * p / 100
    let f : ℤ := pyInt k
    let c : ℤ := min (f + 1) ((sorted_data.length : ℤ) - 1)
    sorted_data.getD f.toNat 0 + (k - (f : ℚ)) * (sorted_data.getD c.toNat 0 - sorted_data.getD f.toNat 0)

/-- The percentile policy as worded by the spec (rank `k = (n-1)·p/100`,
`f = floor(k)`, `c = min(f+1, n-1)`, linear interpolation); differs from the
code only in using `floor` where the code truncates with `int(...)`. -/
def percentileSpec (data : List ℚ) (p : ℚ) : ℚ :=
  if data.isEmpty then 0
  else
    let sample := pySorted data
    let k : ℚ := ((sample.length : ℚ) - 1) * p / 100
    let f : ℤ := ⌊k⌋
    let c : ℤ := min (f + 1) ((sample.length : ℤ) - 1)
    sample.getD f.toNat 0 + (k - (f : ℚ)) * (sample.getD c.toNat 0 - sample.getD f.toNat 0)

/-- The index `f = int(k)` that `percentile` reads (`sorted_data[f]`).
`sorted(data)` has the same length as `data`. -/
def percentileF (data : List ℚ) (p : ℚ) : ℤ :=
  pyInt (((data.length : ℚ) - 1) * p / 100)

/-- The index `c = min(f + 1, len - 1)` that `percentile` reads (`sorted_data[c]`). -/
def percentileC (data : List ℚ) (p : ℚ) : ℤ :=
  min (percentileF data p + 1) ((data.length : ℤ) - 1)

/-- Both list indexings performed by `percentile` are within bounds. -/
def percentileInBounds (data : List ℚ) (p : ℚ) : Prop :=
  0 ≤ percentileF data p ∧ percentileF data p < (data.length : ℤ) ∧
    0 ≤ percentileC data p ∧ percentileC data p < (data.length : ℤ)

instance (data : List ℚ) (p : ℚ) : Decidable (percentileInBounds data p) := by
  unfold percentileInBounds; infer_instance

/-- The `SessionResult` dataclass: one simulated client's outcome. -/
structure SessionResult where
  request_id : ℕ
  mode : String
  timestamp : String
  wait_requested : ℚ
  batch_size : ℕ := 0
  hardware : String := "cpu-basic"
  connect_latency : ℚ := 0
  reset_latency : ℚ := 0
  step_latency : ℚ := 0
  total_latency : ℚ := 0
  waited_seconds : ℚ := 0
  pid : ℤ := 0
  session_hash : String := ""
  host_url : String := ""
  success : Bool := true
  error_type : Option String := none
  error_message : Option String := none
deriving DecidableEq

/-- The `RunSummary` dataclass: aggregate over one configuration cell. -/
structure RunSummary where
  mode : String
  url : String
  num_requests : ℕ
  batch_size : ℕ := 0
  wait_seconds : ℚ := 0
  repetition : ℕ := 0
  timestamp : String := ""
  hardware : String := "cpu-basic"
  successful : ℕ := 0
  failed : ℕ := 0
  error_rate : ℚ := 0
  total_wall_time : ℚ := 0
  connect_p50 : ℚ := 0
  connect_p95 : ℚ := 0
  connect_p99 : ℚ := 0
  reset_p50 : ℚ := 0
  reset_p95 : ℚ := 0
  reset_p99 : ℚ := 0
  step_p50 : ℚ := 0
  step_p95 : ℚ := 0
  step_p99 : ℚ := 0
  total_min : ℚ := 0
  total_max : ℚ := 0
  total_avg : ℚ := 0
  total_p50 : ℚ := 0
  total_p90 : ℚ := 0
  total_p95 : ℚ := 0
  total_p99 : ℚ := 0
  requests_per_second : ℚ := 0
  effective_concurrency : ℚ := 0
  unique_pids : ℕ := 0
  unique_sessions : ℕ := 0
  unique_hosts : ℕ := 0
deriving DecidableEq

/-- `successful = [r for r in results if r.success]`. -/
def successfulOf (results : List SessionResult) : List SessionResult :=
  results.filter (fun r => r.success)

/-- `failed = [r for r in results if not r.success]`. -/
def failedOf (results : List SessionResult) : List SessionResult :=
  results.filter (fun r => !r.success)

/-- `connect_times = [r.connect_latency for r in successful if r.connect_latency > 0]`. -/
def connectTimes (results : List SessionResult) : List ℚ :=
  ((successfulOf results).filter (fun r => 0 < r.connect_latency)).map
    (fun r => r.connect_latency)

/-- `reset_times = [r.reset_latency for r in successful if r.reset_latency > 0]`. -/
def resetTimes (results : List SessionResult) : List ℚ :=
  ((successfulOf results).filter (fun r => 0 < r.reset_latency)).map
    (fun r => r.reset_latency)

/-- `step_times = [r.step_latency for r in successful if r.step_latency > 0]`. -/
def stepTimes (results : List SessionResult) : List ℚ :=
  ((successfulOf results).filter (fun r => 0 < r.step_latency)).map
    (fun r => r.step_latency)

/-- `total_times = [r.total_latency for r in successful]`. -/
def totalTimes (results : List SessionResult) : List ℚ :=
  (successfulOf results).map (fun r => r.total_latency)

/-- `len(set(r.pid for r in successful if r.pid))`. -/
def uniquePidCount (results : List SessionResult) : ℕ :=
  (((successfulOf results).filter (fun r => r.pid ≠ 0)).map (fun r => r.pid)).dedup.length

/-- `len(set(r.session_hash for r in successful if r.session_hash))`. -/
def uniqueSessionCount (results : List SessionResult) : ℕ :=
  (((successfulOf results).filter (fun r => r.session_hash ≠ "")).map
    (fun r => r.session_hash)).dedup.length

/-- `len(set(r.host_url for r in successful if r.host_url))`. -/
def uniqueHostCount (results : List SessionResult) : ℕ :=
  (((successfulOf results).filter (fun r => r.host_url ≠ "")).map
    (fun r => r.host_url)).dedup.length

/-- `compute_summary(results, mode, url, num_requests, wait_seconds, repetition,
total_wall_time, hardware)`: reduce a batch of per-session records to one
`RunSummary`, following the source statement by statement (construct the
summary with the counts, return early when no session succeeded, then fill
the percentile / total / throughput / distribution blocks, each behind the
same guards as the code). -/
def compute_summary (results : List SessionResult) (mode url : String)
    (num_requests : ℕ) (wait_seconds : ℚ) (repetition : ℕ)
    (total_wall_time : ℚ) (hardware : String) : RunSummary :=
  let successful := successfulOf results
  let failed := failedOf results
  let summary : RunSummary :=
    { mode := mode, url := url, num_requests := num_requests,
      batch_size := num_requests, wait_seconds := wait_seconds,
      repetition := repetition, timestamp := "", hardware := hardware,
      successful := successful.length, failed := failed.length,
      error_rate := if results.isEmpty then 0
        else (failed.length : ℚ) / (results.length : ℚ),
      total_wall_time := total_wall_time }
  if successful.isEmpty then summary
  else
    let connect_times := connectTimes results
    let reset_times := resetTimes results
    let step_times := stepTimes results
    let total_times := totalTimes results
    let summary := if connect_times.isEmpty then summary else
      { summary with connect_p50 := percentile connect_times 50,
                     connect_p95 := percentile connect_times 95,
                     connect_p99 := percentile connect_times 99 }
    let summary := if reset_times.isEmpty then summary else
      { summary with reset_p50 := percentile reset_times 50,
                     reset_p95 := percentile reset_times 95,
                     reset_p99 := percentile reset_times 99 }
    let summary := if step_times.isEmpty then summary else
      { summary with step_p50 := percentile step_times 50,
                     step_p95 := percentile step_times 95,
                     step_p99 := percentile step_times 99 }
    let summary := if total_times.isEmpty then summary else
      { summary with total_min := pyMin total_times,
                     total_max := pyMax total_times,
                     total_avg := pyMean total_times,
                     total_p50 := percentile total_times 50,
                     total_p90 := percentile total_times 90,
                     total_p95 := percentile total_times 95,
                     total_p99 := percentile total_times 99 }
    let summary := if 0 < total_wall_time then
      { summary with
          requests_per_second := (successful.length : ℚ) / total_wall_time,
          effective_concurrency := ((num_requests : ℚ) * wait_seconds) / total_wall_time }
      else summary
    { summary with
        unique_pids := uniquePidCount results,
        unique_sessions := uniqueSessionCount results,
        unique_hosts := uniqueHostCount results }

/-- A Python exception as the driver observes it: its class name
(`type(e).__name__`, always a non-empty identifier for a real exception
class) and its message (`str(e)`). -/
structure PyErr where
  name : String := ""
  msg : String := ""
deriving DecidableEq

/-- A parsed `observation` JSON object; each field is `none` when the key is
missing (the drivers read them with `.get(key, default)`). -/
structure Obs where
  waited_seconds : Option ℚ := none
  pid : Option ℤ := none
  session_hash : Option String := none
  host_url : Option String := none
deriving DecidableEq

/-- The `time.perf_counter()` readings an `http_session` call stores:
`t0` at session start, the reset/step span endpoints, and `tFinal`, the
reading used for `total_latency` (taken after the step on success, or in
the `except` block at the failure point). -/
structure HttpTimes where
  t0 : ℚ := 0
  tResetStart : ℚ := 0
  tResetEnd : ℚ := 0
  tStepStart : ℚ := 0
  tStepEnd : ℚ := 0
  tFinal : ℚ := 0
deriving DecidableEq

/-- Environment of one `http_session` call: the `now_iso()` timestamp, the
clock readings, whether the reset and step requests succeeded
(`raise_for_status` included) and the exception raised otherwise, and the
`observation` object of the step response. -/
structure HttpEnv where
  timestamp : String := ""
  times : HttpTimes := {}
  resetOk : Bool := true
  resetErr : PyErr := {}
  stepOk : Bool := true
  stepErr : PyErr := {}
  observation : Option Obs := none
deriving DecidableEq

/-- The failed-record constructor shared by both branches of
`http_session`'s `except` clause. -/
def httpFailure (env : HttpEnv) (request_id : ℕ) (wait_seconds : ℚ)
    (e : PyErr) : SessionResult :=
  { request_id := request_id, mode := "http", timestamp := env.timestamp,
    wait_requested := wait_seconds,
    total_latency := env.times.tFinal - env.times.t0,
    success := false,
    error_type := some e.name,
    error_message := some e.msg }

/-- `http_session`: run HTTP reset + step with granular timing.  Any
exception from either await (or from `raise_for_status`) lands in the
`except Exception` block, which returns a failed record; on success the
observation fields are read with defensive defaults and
`connect_latency` is fixed at `0.0`. -/
def http_session (env : HttpEnv) (request_id : ℕ) (wait_seconds : ℚ) :
    SessionResult :=
  if env.resetOk = false then httpFailure env request_id wait_seconds env.resetErr
  else if env.stepOk = false then httpFailure env request_id wait_seconds env.stepErr
  else
    let obs := env.observation.getD {}
    { request_id := request_id, mode := "http", timestamp := env.timestamp,
      wait_requested := wait_seconds,
      connect_latency := 0,
      reset_latency := env.times.tResetEnd - env.times.tResetStart,
      step_latency := env.times.tStepEnd - env.times.tStepStart,
      total_latency := env.times.tFinal - env.times.t0,
      waited_seconds := obs.waited_seconds.getD 0,
      pid := obs.pid.getD 0,
      session_hash := obs.session_hash.getD "",
      host_url := obs.host_url.getD "" }

/-- `run_http_test`: launch `num_requests` concurrent `http_session`s
(`envs i` is the i-th session's environment), gather the results in launch
order, then stamp `batch_size` and `hardware` on every record.  The `url`
and `timeout` parameters configure the abstracted network layer. -/
def run_http_test (envs : ℕ → HttpEnv) (url : String) (num_requests : ℕ)
    (wait_seconds : ℚ) (timeout : ℚ) (hardware : String) :
    List SessionResult :=
  let _ := url
  let _ := timeout
  let results := (List.range num_requests).map
    (fun i => http_session (envs i) i wait_seconds)
  results.map (fun r => { r with batch_size := num_requests, hardware := hardware })

/-- The `time.perf_counter()` readings a `ws_session` call stores. -/
structure WsTimes where
  t0 : ℚ := 0
  tConnectStart : ℚ := 0
  tConnectEnd : ℚ := 0
  tResetStart : ℚ := 0
  tResetEnd : ℚ := 0
  tStepStart : ℚ := 0
  tStepEnd : ℚ := 0
  tFinal : ℚ := 0
deriving DecidableEq

/-- A parsed WebSocket JSON message: its `type` field, its textual form
`raw` (used when the driver interpolates the message into a
`RuntimeError`), and for a step response the `data.observation` object. -/
structure WsMsg where
  type : String := ""
  raw : String := ""
  observation : Option Obs := none
deriving DecidableEq

/-- Environment of one `ws_session` call: clock readings and for each
awaited operation whether it succeeded and what it produced or raised. -/
structure WsEnv where
  timestamp : String := ""
  times : WsTimes := {}
  connectOk : Bool := true
  connectErr : PyErr := {}
  resetRecvOk : Bool := true
  resetRecvErr : PyErr := {}
  resetResp : WsMsg := {}
  stepRecvOk : Bool := true
  stepRecvErr : PyErr := {}
  stepResp : WsMsg := {}
  closeOk : Bool := true
  closeErr : PyErr := {}
deriving DecidableEq

/-- The failed-record constructor of `ws_session`'s `except` clause. -/
def wsFailure (env : WsEnv) (request_id : ℕ) (wait_seconds : ℚ)
    (e : PyErr) : SessionResult :=
  { request_id := request_id, mode := "ws", timestamp := env.timestamp,
    wait_requested := wait_seconds,
    total_latency := env.times.tFinal - env.times.t0,
    success := false,
    error_type := some e.name,
    error_message := some e.msg }

/-- The `try` body of `ws_session`: connect, reset (an `error`-typed reset
response raises `RuntimeError`), step (likewise), close, then build the
success record; any exception along the way yields a failed record. -/
def ws_session_core (env : WsEnv) (request_id : ℕ) (wait_seconds : ℚ) :
    SessionResult :=
  if env.connectOk = false then wsFailure env request_id wait_seconds env.connectErr
  else if env.resetRecvOk = false then wsFailure env request_id wait_seconds env.resetRecvErr
  else if env.resetResp.type = "error" then
    wsFailure env request_id wait_seconds
      { name := "RuntimeError", msg := "Reset error: " ++ env.resetResp.raw }
  else if env.stepRecvOk = false then wsFailure env request_id wait_seconds env.stepRecvErr
  else if env.stepResp.type = "error" then
    wsFailure env request_id wait_seconds
      { name := "RuntimeError", msg := "Step error: " ++ env.stepResp.raw }
  else if env.closeOk = false then wsFailure env request_id wait_seconds env.closeErr
  else
    let obs := env.stepResp.observation.getD {}
    { request_id := request_id, mode := "ws", timestamp := env.timestamp,
      wait_requested := wait_seconds,
      connect_latency := env.times.tConnectEnd - env.times.tConnectStart,
      reset_latency := env.times.tResetEnd - env.times.tResetStart,
      step_latency := env.times.tStepEnd - env.times.tStepStart,
      total_latency := env.times.tFinal - env.times.t0,
      waited_seconds := obs.waited_seconds.getD 0,
      pid := obs.pid.getD 0,
      session_hash := obs.session_hash.getD "",
      host_url := obs.host_url.getD "" }

/-- The `ImportError` that `ws_session` raises before its `try` block when
the websockets module is not installed. -/
def wsImportError : PyErr :=
  { name := "ImportError", msg := "websockets not installed: pip install websockets" }

/-- `ws_session`: the availability check (which raises, hence `Except`)
followed by the guarded session body, which never raises. -/
def ws_session (available : Bool) (env : WsEnv) (request_id : ℕ)
    (wait_seconds : ℚ) : Except PyErr SessionResult :=
  if available = false then Except.error wsImportError
  else Except.ok (ws_session_core env request_id wait_seconds)

/-- `run_ws_test`: launch `num_requests` concurrent `ws_session`s, gather
in launch order (an `ImportError` raised by a session propagates), then
stamp `batch_size` and `hardware` on every record. -/
def run_ws_test (available : Bool) (envs : ℕ → WsEnv) (url : String)
    (num_requests : ℕ) (wait_seconds : ℚ) (timeout : ℚ) (hardware : String) :
    Except PyErr (List SessionResult) := do
  let _ := url
  let _ := timeout
  let results ← (List.range num_requests).mapM
    (fun i => ws_session available (envs i) i wait_seconds)
  return results.map (fun r => { r with batch_size := num_requests, hardware := hardware })

/-- The stamped record list `run_ws_test` produces when websockets are
available. -/
def ws_batch (envs : ℕ → WsEnv) (num_requests : ℕ) (wait_seconds : ℚ)
    (hardware : String) : List SessionResult :=
  ((List.range num_requests).map (fun i => ws_session_core (envs i) i wait_seconds)).map
    (fun r => { r with batch_size := num_requests, hardware := hardware })

/-- Environment of one grid cell: the per-session environments for either
transport and the wall-clock span measured around the batch
(`total_wall_time = time.perf_counter() - start`). -/
structure CellEnv where
  httpEnvs : ℕ → HttpEnv := fun _ => {}
  wsEnvs : ℕ → WsEnv := fun _ => {}
  wallTime : ℚ := 0

/-- `run_single_test`: run one configuration (dispatching on `mode`; `"ws"`
first checks module availability and raises `ImportError` otherwise) and
aggregate the records with `compute_summary`.  Console printing and
optional file output are side effects outside the data contract and are
not modelled. -/
def run_single_test (available : Bool) (cell : CellEnv) (url : String)
    (num_requests : ℕ) (wait_seconds : ℚ) (mode : String) (timeout : ℚ)
    (repetition : ℕ) (hardware : String) : Except PyErr RunSummary := do
  let results ←
    if mode = "ws" then
      if available = false then
        Except.error { name := "ImportError", msg := "websockets not installed for ws mode" }
      else run_ws_test available cell.wsEnvs url num_requests wait_seconds timeout hardware
    else
      Except.ok (run_http_test cell.httpEnvs url num_requests wait_seconds timeout hardware)
  return compute_summary results mode url num_requests wait_seconds repetition
    cell.wallTime hardware

/-- `run_grid_sweep`: iterate `requests_grid × wait_grid × range(1, reps+1)`
in that nested order, run each cell, and return the summaries in iteration
order (the imperative `all_summaries.append` accumulation is rendered as
nested `mapM` + flatten, which produces the same ordered list).  The brief
pause between runs is a pure delay and is not modelled. -/
def run_grid_sweep (available : Bool) (cells : ℕ → ℚ → ℕ → CellEnv)
    (url : String) (requests_grid : List ℕ) (wait_grid : List ℚ)
    (mode : String) (timeout : ℚ) (repetitions : ℕ) (hardware : String) :
    Except PyErr (List RunSummary) := do
  let nested ← requests_grid.mapM (fun n => do
    let inner ← wait_grid.mapM (fun w =>
      ((List.range repetitions).map (fun i => i + 1)).mapM (fun rep =>
        run_single_test available (cells n w rep) url n w mode timeout rep hardware))
    return inner.flatten)
  return nested.flatten

/-- The records a single cell feeds into `compute_summary` (the batch of the
transport selected by `mode`). -/
def cellRecords (cell : CellEnv) (url : String) (n : ℕ) (w tmo : ℚ)
    (mode : String) (hw : String) : List SessionResult :=
  if mode = "ws" then ws_batch cell.wsEnvs n w hw
  else run_http_test cell.httpEnvs url n w tmo hw

/-- A concrete failing HTTP environment with named exceptions. -/
def httpEnvFailExample : HttpEnv :=
  { resetOk := false,
    resetErr := { name := "ConnectError", msg := "connection refused" },
    stepErr := { name := "HTTPStatusError", msg := "" } }

/-- A concrete failed record (an `http_session` whose reset request raised). -/
def failedRecordExample : SessionResult := http_session httpEnvFailExample 0 1

/-- A concrete successful record (an `http_session` with the default
environment: both requests succeed). -/
def okRecordExample : SessionResult := http_session {} 0 1

/-- A concrete failing WebSocket environment with named exceptions. -/
def wsEnvFailExample : WsEnv :=
  { connectOk := false,
    connectErr := { name := "TimeoutError", msg := "timed out" },
    resetRecvErr := { name := "OSError", msg := "" },
    stepRecvErr := { name := "OSError", msg := "" },
    closeErr := { name := "OSError", msg := "" } }

/-- Concrete grid-cell environments in which every session fails at reset. -/
def exampleCells : ℕ → ℚ → ℕ → CellEnv := fun _ _ _ =>
  { httpEnvs := fun _ => httpEnvFailExample, wallTime := 0 }

/-! ### List minimum / maximum helper lemmas -/

theorem foldl_min_le_init (a : ℚ) (xs : List ℚ) : xs.foldl min a ≤ a := by
  induction xs generalizing a with
  | nil => exact le_rfl
  | cons x xs ih =>
    exact le_trans (ih (min a x)) (min_le_left a x)

theorem foldl_min_le_mem (a : ℚ) (xs : List ℚ) : ∀ x ∈ xs, xs.foldl min a ≤ x := by
  induction xs generalizing a with
  | nil => intro x hx; cases hx
  | cons y ys ih =>
    intro x hx
    rcases List.mem_cons.1 hx with h | h
    · subst h
      exact le_trans (foldl_min_le_init (min a x) ys) (min_le_right a x)
    · exact ih (min a y) x h

theorem foldl_min_mem (a : ℚ) (xs : List ℚ) : xs.foldl min a = a ∨ xs.foldl min a ∈ xs := by
  induction xs generalizing a with
  | nil => left; rfl
  | cons y ys ih =>
    rcases ih (min a y) with h | h
    · rcases min_choice a y with h2 | h2
      · left; rw [List.foldl_cons, h, h2]
      · right; rw [List.foldl_cons, h, h2]; exact List.mem_cons_self y ys
    · right; exact List.mem_cons_of_mem y h

theorem init_le_foldl_max (a : ℚ) (xs : List ℚ) : a ≤ xs.foldl max a := by
  induction xs generalizing a with
  | nil => exact le_rfl
  | cons x xs ih =>
    exact le_trans (le_max_left a x) (ih (max a x))

theorem mem_le_foldl_max (a : ℚ) (xs : List ℚ) : ∀ x ∈ xs, x ≤ xs.foldl max a := by
  induction xs generalizing a with
  | nil => intro x hx; cases hx
  | cons y ys ih =>
    intro x hx
    rcases List.mem_cons.1 hx with h | h
    · subst h
      exact le_trans (le_max_right a x) (init_le_foldl_max (max a x) ys)
    · exact ih (max a y) x h

theorem foldl_max_mem (a : ℚ) (xs : List ℚ) : xs.foldl max a = a ∨ xs.foldl max a ∈ xs := by
  induction xs generalizing a with
  | nil => left; rfl
  | cons y ys ih =>
    rcases ih (max a y) with h | h
    · rcases max_choice a y with h2 | h2
      · left; rw [List.foldl_cons, h, h2]
      · right; rw [List.foldl_cons, h, h2]; exact List.mem_cons_self y ys
    · right; exact List.mem_cons_of_mem y h

theorem pyMin_mem (l : List ℚ) (h : l ≠ []) : pyMin l ∈ l := by
  match l with
  | [] => exact absurd rfl h
  | x :: xs =>
    rcases foldl_min_mem x xs with h2 | h2
    · rw [pyMin, h2]; exact List.mem_cons_self x xs
    · exact List.mem_cons_of_mem x h2

theorem pyMin_le (l : List ℚ) (x : ℚ) (hx : x ∈ l) : pyMin l ≤ x := by
  match l with
  | [] => cases hx
  | y :: ys =>
    rcases List.mem_cons.1 hx with h | h
    · subst h; exact foldl_min_le_init x ys
    · exact foldl_min_le_mem y ys x h

theorem pyMax_mem (l : List ℚ) (h : l ≠ []) : pyMax l ∈ l := by
  match l with
  | [] => exact absurd rfl h
  | x :: xs =>
    rcases foldl_max_mem x xs with h2 | h2
    · rw [pyMax, h2]; exact List.mem_cons_self x xs
    · exact List.mem_cons_of_mem x h2

theorem le_pyMax (l : List ℚ) (x : ℚ) (hx : x ∈ l) : x ≤ pyMax l := by
  match l with
  | [] => cases hx
  | y :: ys =>
    rcases List.mem_cons.1 hx with h | h
    · subst h; exact init_le_foldl_max x ys
    · exact mem_le_foldl_max y ys x h

/-! ### Sorting helper lemmas -/

theorem pySorted_sorted (l : List ℚ) : (pySorted l).Sorted (· ≤ ·) :=
  List.sorted_insertionSort _ l

theorem pySorted_perm (l : List ℚ) : (pySorted l).Perm l :=
  List.perm_insertionSort _ l

theorem pySorted_length (l : List ℚ) : (pySorted l).length = l.length :=
  (pySorted_perm l).length_eq

theorem pySorted_getD_mono (l : List ℚ) {i j : ℕ} (hij : i ≤ j)
    (hj : j < (pySorted l).length) :
    (pySorted l).getD i 0 ≤ (pySorted l).getD j 0 := by
  have hi : i < (pySorted l).length := lt_of_le_of_lt hij hj
  rw [List.getD_eq_getElem _ _ hi, List.getD_eq_getElem _ _ hj]
  rcases lt_or_eq_of_le hij with h | h
  · have := List.pairwise_iff_get.1 (pySorted_sorted l) ⟨i, hi⟩ ⟨j, hj⟩ h
    simpa [List.get_eq_getElem] using this
  · subst h; exact le_rfl

theorem pySorted_getD_mem (l : List ℚ) {i : ℕ} (hi : i < (pySorted l).length) :
    (pySorted l).getD i 0 ∈ l := by
  rw [List.getD_eq_getElem _ _ hi]
  exact (pySorted_perm l).mem_iff.1 (List.getElem_mem hi)

theorem pySorted_first_le (l : List ℚ) (x : ℚ) (hx : x ∈ l) :
    (pySorted l).getD 0 0 ≤ x := by
  have hx2 : x ∈ pySorted l := (pySorted_perm l).mem_iff.2 hx
  obtain ⟨i, hi⟩ := List.mem_iff_get.1 hx2
  have h := pySorted_getD_mono l (Nat.zero_le i.1) i.2
  rw [List.getD_eq_getElem _ _ i.2] at h
  simpa [List.get_eq_getElem, hi] using h.trans_eq (by rw [← hi]; simp [List.get_eq_getElem])

theorem pySorted_le_last (l : List ℚ) (x : ℚ) (hx : x ∈ l) :
    x ≤ (pySorted l).getD (l.length - 1) 0 := by
  have hx2 : x ∈ pySorted l := (pySorted_perm l).mem_iff.2 hx
  obtain ⟨i, hi⟩ := List.mem_iff_get.1 hx2
  have hlen : (pySorted l).length = l.length := pySorted_length l
  have hij : i.1 ≤ l.length - 1 := by omega
  have hj : l.length - 1 < (pySorted l).length := by
    have : 0 < l.length := by
      rcases l with _ | _
      · exact absurd hx (by simp)
      · simp
    omega
  have h := pySorted_getD_mono l hij hj
  rw [List.getD_eq_getElem _ _ i.2] at h
  calc x = (pySorted l).get i := hi.symm
    _ = (pySorted l)[i.1] := by simp [List.get_eq_getElem]
    _ ≤ (pySorted l).getD (l.length - 1) 0 := h

theorem pySorted_getD_zero (l : List ℚ) (h : l ≠ []) :
    (pySorted l).getD 0 0 = pyMin l := by
  have hlen : 0 < (pySorted l).length := by
    rw [pySorted_length]; exact List.length_pos.2 h
  exact le_antisymm (pySorted_first_le l (pyMin l) (pyMin_mem l h))
    (pyMin_le l _ (pySorted_getD_mem l hlen))

theorem pySorted_getD_last (l : List ℚ) (h : l ≠ []) :
    (pySorted l).getD (l.length - 1) 0 = pyMax l := by
  have hlen : l.length - 1 < (pySorted l).length := by
    rw [pySorted_length]
    have : 0 < l.length := List.length_pos.2 h
    omega
  exact le_antisymm (le_pyMax l _ (pySorted_getD_mem l hlen))
    (pySorted_le_last l (pyMax l) (pyMax_mem l h))

/-! ### Percentile rank and index bounds -/

theorem percentile_k_nonneg (data : List ℚ) (p : ℚ) (hne : data ≠ [])
    (h0 : 0 ≤ p) : 0 ≤ ((data.length : ℚ) - 1) * p / 100 := by
  have h1 : (1 : ℚ) ≤ (data.length : ℚ) := by
    exact_mod_cast List.length_pos.2 hne
  have h2 : (0 : ℚ) ≤ (data.length : ℚ) - 1 := by linarith
  have := mul_nonneg h2 h0
  linarith

theorem percentile_k_le (data : List ℚ) (p : ℚ) (hne : data ≠ [])
    (h1 : p ≤ 100) (_h0 : 0 ≤ p) :
    ((data.length : ℚ) - 1) * p / 100 ≤ (data.length : ℚ) - 1 := by
  have hl : (1 : ℚ) ≤ (data.length : ℚ) := by
    exact_mod_cast List.length_pos.2 hne
  have h2 : (0 : ℚ) ≤ (data.length : ℚ) - 1 := by linarith
  have := mul_le_mul_of_nonneg_left h1 h2
  linarith

theorem percentileF_eq_floor (data : List ℚ) (p : ℚ) (hne : data ≠ [])
    (h0 : 0 ≤ p) :
    percentileF data p = ⌊((data.length : ℚ) - 1) * p / 100⌋ := by
  unfold percentileF pyInt
  rw [if_pos (percentile_k_nonneg data p hne h0)]

theorem percentileF_nonneg (data : List ℚ) (p : ℚ) (hne : data ≠ [])
    (h0 : 0 ≤ p) : 0 ≤ percentileF data p := by
  rw [percentileF_eq_floor data p hne h0]
  exact Int.floor_nonneg.2 (percentile_k_nonneg data p hne h0)

theorem percentileF_cast_le (data : List ℚ) (p : ℚ) (hne : data ≠ [])
    (h0 : 0 ≤ p) :
    ((percentileF data p : ℤ) : ℚ) ≤ ((data.length : ℚ) - 1) * p / 100 := by
  rw [percentileF_eq_floor data p hne h0]
  exact Int.floor_le _

theorem percentileF_le_sub_one (data : List ℚ) (p : ℚ) (hne : data ≠ [])
    (h0 : 0 ≤ p) (h1 : p ≤ 100) :
    percentileF data p ≤ (data.length : ℤ) - 1 := by
  have h2 : ((percentileF data p : ℤ) : ℚ) ≤ (data.length : ℚ) - 1 :=
    le_trans (percentileF_cast_le data p hne h0) (percentile_k_le data p hne h1 h0)
  exact_mod_cast h2

theorem percentileF_lt_cast (data : List ℚ) (p : ℚ) (hne : data ≠ [])
    (h0 : 0 ≤ p) :
    ((data.length : ℚ) - 1) * p / 100 < ((percentileF data p : ℤ) : ℚ) + 1 := by
  rw [percentileF_eq_floor data p hne h0]
  exact Int.lt_floor_add_one _

theorem percentileC_nonneg (data : List ℚ) (p : ℚ) (hne : data ≠ [])
    (h0 : 0 ≤ p) : 0 ≤ percentileC data p := by
  have hf := percentileF_nonneg data p hne h0
  have hl : 1 ≤ (data.length : ℤ) := by
    exact_mod_cast List.length_pos.2 hne
  unfold percentileC
  omega

theorem percentileC_le_sub_one (data : List ℚ) (p : ℚ) :
    percentileC data p ≤ (data.length : ℤ) - 1 :=
  min_le_right _ _

theorem percentileF_le_percentileC (data : List ℚ) (p : ℚ) (hne : data ≠ [])
    (h0 : 0 ≤ p) (h1 : p ≤ 100) :
    percentileF data p ≤ percentileC data p := by
  have h2 := percentileF_le_sub_one data p hne h0 h1
  unfold percentileC
  omega

/-- Unfold `percentile` on a non-empty list into its interpolation formula,
expressed through `percentileF` / `percentileC` (indices computed from
`data.length`, to which the sorted length is equal). -/
theorem percentile_eq (data : List ℚ) (p : ℚ) (h : data ≠ []) :
    percentile data p =
      (pySorted data).getD (percentileF data p).toNat 0 +
        ((((data.length : ℚ) - 1) * p / 100) - ((percentileF data p : ℤ) : ℚ)) *
          ((pySorted data).getD (percentileC data p).toNat 0 -
            (pySorted data).getD (percentileF data p).toNat 0) := by
  unfold percentile percentileC percentileF
  rw [if_neg (by simp [List.isEmpty_iff, h])]
  dsimp only
  rw [pySorted_length]

/-- On a non-empty list with `0 ≤ p`, the code's `int(k)` truncation agrees
with the spec's `floor(k)`, so `percentile` equals the spec formula. -/
theorem percentile_eq_spec (data : List ℚ) (p : ℚ) (h0 : 0 ≤ p) :
    percentile data p = percentileSpec data p := by
  by_cases h : data = []
  · subst h; rfl
  · unfold percentile percentileSpec
    rw [if_neg (by simp [List.isEmpty_iff, h]), if_neg (by simp [List.isEmpty_iff, h])]
    dsimp only
    have hk : (0 : ℚ) ≤ (((pySorted data).length : ℚ) - 1) * p / 100 := by
      rw [pySorted_length]
      exact percentile_k_nonneg data p h h0
    unfold pyInt
    rw [if_pos hk]

/-! ### Percentile value, bounds and monotonicity lemmas -/

theorem percentile_nil (p : ℚ) : percentile [] p = 0 := rfl

theorem percentile_zero (data : List ℚ) (h : data ≠ []) :
    percentile data 0 = pyMin data := by
  rw [percentile_eq data 0 h]
  have hF : percentileF data 0 = 0 := by
    rw [percentileF_eq_floor data 0 h le_rfl]
    norm_num
  have hk : ((data.length : ℚ) - 1) * 0 / 100 = 0 := by ring
  rw [hF, hk]
  simpa using pySorted_getD_zero data h

theorem percentile_hundred (data : List ℚ) (h : data ≠ []) :
    percentile data 100 = pyMax data := by
  rw [percentile_eq data 100 h]
  have hlen : 1 ≤ (data.length : ℤ) := by exact_mod_cast List.length_pos.2 h
  have hk : ((data.length : ℚ) - 1) * 100 / 100 = (data.length : ℚ) - 1 := by ring
  have hcast : ((data.length : ℚ) - 1) = (((data.length : ℤ) - 1 : ℤ) : ℚ) := by
    push_cast; ring
  have hF : percentileF data 100 = (data.length : ℤ) - 1 := by
    rw [percentileF_eq_floor data 100 h (by norm_num), hk, hcast, Int.floor_intCast]
  have hC : percentileC data 100 = (data.length : ℤ) - 1 := by
    unfold percentileC; rw [hF]; omega
  have hidx : ((data.length : ℤ) - 1).toNat = data.length - 1 := by omega
  rw [hF, hC, hk, hcast, hidx]
  have h2 : ((((data.length : ℤ) - 1 : ℤ)) : ℚ) - ((((data.length : ℤ) - 1 : ℤ)) : ℚ) = 0 := by
    ring
  rw [sub_self]
  simpa using pySorted_getD_last data h

theorem percentile_bounds_ok (data : List ℚ) (p : ℚ) (hne : data ≠ [])
    (h0 : 0 ≤ p) (h1 : p ≤ 100) : percentileInBounds data p := by
  have hlen : 1 ≤ (data.length : ℤ) := by exact_mod_cast List.length_pos.2 hne
  refine ⟨percentileF_nonneg data p hne h0, ?_, percentileC_nonneg data p hne h0, ?_⟩
  · have := percentileF_le_sub_one data p hne h0 h1; omega
  · have := percentileC_le_sub_one data p; omega

theorem percentile_oob_example : ¬ percentileInBounds [0, 1] 200 := by
  have hF : percentileF [0, 1] 200 = 2 := by
    unfold percentileF pyInt
    norm_num
  intro hcontra
  rcases hcontra with ⟨-, h2, -, -⟩
  rw [hF] at h2
  norm_num at h2

theorem percentile_between (data : List ℚ) (p : ℚ) (hne : data ≠ [])
    (h0 : 0 ≤ p) (h1 : p ≤ 100) :
    pyMin data ≤ percentile data p ∧ percentile data p ≤ pyMax data := by
  rw [percentile_eq data p hne]
  have hlen : 1 ≤ (data.length : ℤ) := by exact_mod_cast List.length_pos.2 hne
  have hslen : (pySorted data).length = data.length := pySorted_length data
  have hF0 := percentileF_nonneg data p hne h0
  have hFle := percentileF_le_sub_one data p hne h0 h1
  have hC0 := percentileC_nonneg data p hne h0
  have hCle := percentileC_le_sub_one data p
  have hFC := percentileF_le_percentileC data p hne h0 h1
  have hFN : (percentileF data p).toNat < (pySorted data).length := by
    rw [hslen]; omega
  have hCN : (percentileC data p).toNat < (pySorted data).length := by
    rw [hslen]; omega
  have hFCN : (percentileF data p).toNat ≤ (percentileC data p).toNat := by omega
  have hAB := pySorted_getD_mono data hFCN hCN
  have hAmem := pySorted_getD_mem data hFN
  have hBmem := pySorted_getD_mem data hCN
  have ht0 : 0 ≤ ((data.length : ℚ) - 1) * p / 100 - ((percentileF data p : ℤ) : ℚ) := by
    have := percentileF_cast_le data p hne h0; linarith
  have ht1 : ((data.length : ℚ) - 1) * p / 100 - ((percentileF data p : ℤ) : ℚ) ≤ 1 := by
    have := percentileF_lt_cast data p hne h0; linarith
  constructor
  · have hmin := pyMin_le data _ hAmem
    have hprod : 0 ≤ (((data.length : ℚ) - 1) * p / 100 - ((percentileF data p : ℤ) : ℚ)) *
        ((pySorted data).getD (percentileC data p).toNat 0 -
          (pySorted data).getD (percentileF data p).toNat 0) :=
      mul_nonneg ht0 (by linarith)
    linarith
  · have hmax := le_pyMax data _ hBmem
    have hprod : (((data.length : ℚ) - 1) * p / 100 - ((percentileF data p : ℤ) : ℚ)) *
        ((pySorted data).getD (percentileC data p).toNat 0 -
          (pySorted data).getD (percentileF data p).toNat 0) ≤
        1 * ((pySorted data).getD (percentileC data p).toNat 0 -
          (pySorted data).getD (percentileF data p).toNat 0) :=
      mul_le_mul_of_nonneg_right ht1 (by linarith)
    linarith

theorem percentile_mono (data : List ℚ) (p1 p2 : ℚ) (h0 : 0 ≤ p1)
    (h12 : p1 ≤ p2) (h2 : p2 ≤ 100) :
    percentile data p1 ≤ percentile data p2 := by
  by_cases hne : data = []
  · subst hne; rw [percentile_nil, percentile_nil]
  · rw [percentile_eq data p1 hne, percentile_eq data p2 hne]
    have h0' : 0 ≤ p2 := le_trans h0 h12
    have hle1 : p1 ≤ 100 := le_trans h12 h2
    have hlen : 1 ≤ (data.length : ℤ) := by exact_mod_cast List.length_pos.2 hne
    have hlenQ : (1 : ℚ) ≤ (data.length : ℚ) := by
      exact_mod_cast List.length_pos.2 hne
    have hslen : (pySorted data).length = data.length := pySorted_length data
    have hk12 : ((data.length : ℚ) - 1) * p1 / 100 ≤ ((data.length : ℚ) - 1) * p2 / 100 := by
      have hnn : (0 : ℚ) ≤ (data.length : ℚ) - 1 := by linarith
      have := mul_le_mul_of_nonneg_left h12 hnn
      linarith
    have hF12 : percentileF data p1 ≤ percentileF data p2 := by
      rw [percentileF_eq_floor data p1 hne h0, percentileF_eq_floor data p2 hne h0']
      exact Int.floor_le_floor hk12
    have hF10 := percentileF_nonneg data p1 hne h0
    have hF20 := percentileF_nonneg data p2 hne h0'
    have hF1le := percentileF_le_sub_one data p1 hne h0 hle1
    have hF2le := percentileF_le_sub_one data p2 hne h0' h2
    have hC10 := percentileC_nonneg data p1 hne h0
    have hC20 := percentileC_nonneg data p2 hne h0'
    have hC1le := percentileC_le_sub_one data p1
    have hC2le := percentileC_le_sub_one data p2
    have hFC1 := percentileF_le_percentileC data p1 hne h0 hle1
    have hFC2 := percentileF_le_percentileC data p2 hne h0' h2
    have hF1N : (percentileF data p1).toNat < (pySorted data).length := by
      rw [hslen]; omega
    have hF2N : (percentileF data p2).toNat < (pySorted data).length := by
      rw [hslen]; omega
    have hC1N : (percentileC data p1).toNat < (pySorted data).length := by
      rw [hslen]; omega
    have hC2N : (percentileC data p2).toNat < (pySorted data).length := by
      rw [hslen]; omega
    have hA1B1 : (pySorted data).getD (percentileF data p1).toNat 0 ≤
        (pySorted data).getD (percentileC data p1).toNat 0 :=
      pySorted_getD_mono data (by omega) hC1N
    have hA2B2 : (pySorted data).getD (percentileF data p2).toNat 0 ≤
        (pySorted data).getD (percentileC data p2).toNat 0 :=
      pySorted_getD_mono data (by omega) hC2N
    have ht10 : 0 ≤ ((data.length : ℚ) - 1) * p1 / 100 - ((percentileF data p1 : ℤ) : ℚ) := by
      have := percentileF_cast_le data p1 hne h0; linarith
    have ht11 : ((data.length : ℚ) - 1) * p1 / 100 - ((percentileF data p1 : ℤ) : ℚ) ≤ 1 := by
      have := percentileF_lt_cast data p1 hne h0; linarith
    have ht20 : 0 ≤ ((data.length : ℚ) - 1) * p2 / 100 - ((percentileF data p2 : ℤ) : ℚ) := by
      have := percentileF_cast_le data p2 hne h0'; linarith
    rcases eq_or_lt_of_le hF12 with hEq | hLt
    · have hCeq : percentileC data p1 = percentileC data p2 := by
        unfold percentileC; rw [hEq]
      rw [hEq, hCeq]
      have hsub : ((data.length : ℚ) - 1) * p1 / 100 - ((percentileF data p2 : ℤ) : ℚ) ≤
          ((data.length : ℚ) - 1) * p2 / 100 - ((percentileF data p2 : ℤ) : ℚ) := by
        linarith
      have hprod := mul_le_mul_of_nonneg_right hsub
        (sub_nonneg.2 hA2B2)
      linarith
    · have hC1F2 : (percentileC data p1).toNat ≤ (percentileF data p2).toNat := by
        unfold percentileC at hC10 hC1le ⊢
        omega
      have hB1A2 : (pySorted data).getD (percentileC data p1).toNat 0 ≤
          (pySorted data).getD (percentileF data p2).toNat 0 :=
        pySorted_getD_mono data hC1F2 hF2N
      have hg1 : (pySorted data).getD (percentileF data p1).toNat 0 +
          (((data.length : ℚ) - 1) * p1 / 100 - ((percentileF data p1 : ℤ) : ℚ)) *
            ((pySorted data).getD (percentileC data p1).toNat 0 -
              (pySorted data).getD (percentileF data p1).toNat 0) ≤
          (pySorted data).getD (percentileC data p1).toNat 0 := by
        have hprod := mul_le_mul_of_nonneg_right ht11 (sub_nonneg.2 hA1B1)
        linarith
      have hg2 : (pySorted data).getD (percentileF data p2).toNat 0 ≤
          (pySorted data).getD (percentileF data p2).toNat 0 +
          (((data.length : ℚ) - 1) * p2 / 100 - ((percentileF data p2 : ℤ) : ℚ)) *
            ((pySorted data).getD (percentileC data p2).toNat 0 -
              (pySorted data).getD (percentileF data p2).toNat 0) := by
        have hprod := mul_nonneg ht20 (sub_nonneg.2 hA2B2)
        linarith
      linarith

theorem percentile_example : percentile [1, 2, 3, 4, 5] 50 = 3 := by
  have hs : pySorted [1, 2, 3, 4, 5] = [1, 2, 3, 4, 5] := by
    norm_num [pySorted, List.insertionSort, List.orderedInsert]
  have hF : percentileF [1, 2, 3, 4, 5] 50 = 2 := by
    unfold percentileF pyInt
    norm_num
  have hC : percentileC [1, 2, 3, 4, 5] 50 = 3 := by
    unfold percentileC
    rw [hF]
    norm_num
  rw [percentile_eq [1, 2, 3, 4, 5] 50 (by simp), hs, hF, hC]
  norm_num [List.getD]
  rfl

/-! ### Aggregator helper lemmas -/

theorem length_filter_partition {α : Type} (l : List α) (p : α → Bool) :
    (l.filter p).length + (l.filter (fun a => !p a)).length = l.length := by
  induction l with
  | nil => rfl
  | cons x xs ih =>
    cases h : p x <;> simp [List.filter_cons, h] <;> omega

theorem successfulOf_add_failedOf (results : List SessionResult) :
    (successfulOf results).length + (failedOf results).length = results.length :=
  length_filter_partition results (fun r => r.success)

theorem connectTimes_of_no_success (results : List SessionResult)
    (h : successfulOf results = []) : connectTimes results = [] := by
  simp [connectTimes, h]

theorem resetTimes_of_no_success (results : List SessionResult)
    (h : successfulOf results = []) : resetTimes results = [] := by
  simp [resetTimes, h]

theorem stepTimes_of_no_success (results : List SessionResult)
    (h : successfulOf results = []) : stepTimes results = [] := by
  simp [stepTimes, h]

theorem totalTimes_of_no_success (results : List SessionResult)
    (h : successfulOf results = []) : totalTimes results = [] := by
  simp [totalTimes, h]

set_option maxHeartbeats 2000000 in
/-- Closed form of `compute_summary`: every field of the returned record,
with the same guards the code's sequential updates use. -/
theorem compute_summary_fields (results : List SessionResult) (mode url : String)
    (num_requests : ℕ) (wait_seconds : ℚ) (repetition : ℕ)
    (total_wall_time : ℚ) (hardware : String) :
    compute_summary results mode url num_requests wait_seconds repetition
        total_wall_time hardware =
      { mode := mode, url := url, num_requests := num_requests,
        batch_size := num_requests, wait_seconds := wait_seconds,
        repetition := repetition, timestamp := "", hardware := hardware,
        successful := (successfulOf results).length,
        failed := (failedOf results).length,
        error_rate := if results.isEmpty then 0
          else ((failedOf results).length : ℚ) / (results.length : ℚ),
        total_wall_time := total_wall_time,
        connect_p50 := if (successfulOf results).isEmpty then 0
          else if (connectTimes results).isEmpty then 0
          else percentile (connectTimes results) 50,
        connect_p95 := if (successfulOf results).isEmpty then 0
          else if (connectTimes results).isEmpty then 0
          else percentile (connectTimes results) 95,
        connect_p99 := if (successfulOf results).isEmpty then 0
          else if (connectTimes results).isEmpty then 0
          else percentile (connectTimes results) 99,
        reset_p50 := if (successfulOf results).isEmpty then 0
          else if (resetTimes results).isEmpty then 0
          else percentile (resetTimes results) 50,
        reset_p95 := if (successfulOf results).isEmpty then 0
          else if (resetTimes results).isEmpty then 0
          else percentile (resetTimes results) 95,
        reset_p99 := if (successfulOf results).isEmpty then 0
          else if (resetTimes results).isEmpty then 0
          else percentile (resetTimes results) 99,
        step_p50 := if (successfulOf results).isEmpty then 0
          else if (stepTimes results).isEmpty then 0
          else percentile (stepTimes results) 50,
        step_p95 := if (successfulOf results).isEmpty then 0
          else if (stepTimes results).isEmpty then 0
          else percentile (stepTimes results) 95,
        step_p99 := if (successfulOf results).isEmpty then 0
          else if (stepTimes results).isEmpty then 0
          else percentile (stepTimes results) 99,
        total_min := if (successfulOf results).isEmpty then 0
          else if (totalTimes results).isEmpty then 0
          else pyMin (totalTimes results),
        total_max := if (successfulOf results).isEmpty then 0
          else if (totalTimes results).isEmpty then 0
          else pyMax (totalTimes results),
        total_avg := if (successfulOf results).isEmpty then 0
          else if (totalTimes results).isEmpty then 0
          else pyMean (totalTimes results),
        total_p50 := if (successfulOf results).isEmpty then 0
          else if (totalTimes results).isEmpty then 0
          else percentile (totalTimes results) 50,
        total_p90 := if (successfulOf results).isEmpty then 0
          else if (totalTimes results).isEmpty then 0
          else percentile (totalTimes results) 90,
        total_p95 := if (successfulOf results).isEmpty then 0
          else if (totalTimes results).isEmpty then 0
          else percentile (totalTimes results) 95,
        total_p99 := if (successfulOf results).isEmpty then 0
          else if (totalTimes results).isEmpty then 0
          else percentile (totalTimes results) 99,
        requests_per_second := if (successfulOf results).isEmpty then 0
          else if 0 < total_wall_time then
            ((successfulOf results).length : ℚ) / total_wall_time
          else 0,
        effective_concurrency := if (successfulOf results).isEmpty then 0
          else if 0 < total_wall_time then
            ((num_requests : ℚ) * wait_seconds) / total_wall_time
          else 0,
        unique_pids := if (successfulOf results).isEmpty then 0
          else uniquePidCount results,
        unique_sessions := if (successfulOf results).isEmpty then 0
          else uniqueSessionCount results,
        unique_hosts := if (successfulOf results).isEmpty then 0
          else uniqueHostCount results } := by
  simp only [compute_summary]
  split_ifs <;> rfl

/-! ### Session driver and batch runner lemmas -/

theorem http_session_connect (env : HttpEnv) (request_id : ℕ) (wait_seconds : ℚ) :
    (http_session env request_id wait_seconds).connect_latency = 0 := by
  unfold http_session httpFailure
  split_ifs <;> rfl

theorem run_http_test_length (envs : ℕ → HttpEnv) (url : String) (n : ℕ)
    (w tmo : ℚ) (hw : String) : (run_http_test envs url n w tmo hw).length = n := by
  simp [run_http_test]

theorem run_http_test_getElem (envs : ℕ → HttpEnv) (url : String) (n : ℕ)
    (w tmo : ℚ) (hw : String) (i : ℕ) (hi : i < n) :
    (run_http_test envs url n w tmo hw)[i]? =
      some { http_session (envs i) i w with batch_size := n, hardware := hw } := by
  simp [run_http_test, List.getElem?_map, List.getElem?_range hi]

theorem run_http_test_connect (envs : ℕ → HttpEnv) (url : String) (n : ℕ)
    (w tmo : ℚ) (hw : String) :
    ∀ r ∈ run_http_test envs url n w tmo hw, r.connect_latency = 0 := by
  intro r hr
  simp only [run_http_test, List.mem_map, List.mem_range] at hr
  obtain ⟨a, ⟨i, hi, rfl⟩, rfl⟩ := hr
  exact http_session_connect (envs i) i w

theorem connectTimes_run_http_test (envs : ℕ → HttpEnv) (url : String) (n : ℕ)
    (w tmo : ℚ) (hw : String) :
    connectTimes (run_http_test envs url n w tmo hw) = [] := by
  have hfil : (successfulOf (run_http_test envs url n w tmo hw)).filter
      (fun r => 0 < r.connect_latency) = [] := by
    rw [List.filter_eq_nil_iff]
    intro a ha
    unfold successfulOf at ha
    have ha2 := (List.mem_filter.1 ha).1
    have := run_http_test_connect envs url n w tmo hw a ha2
    simp [this]
  unfold connectTimes
  rw [hfil]
  rfl

theorem mapM_ok_of_forall_ok {α β : Type} (l : List α) (f : α → Except PyErr β)
    (g : α → β) (h : ∀ a ∈ l, f a = Except.ok (g a)) :
    l.mapM f = Except.ok (l.map g) := by
  induction l with
  | nil => rfl
  | cons x xs ih =>
    rw [List.mapM_cons, h x (List.mem_cons_self x xs),
      ih (fun a ha => h a (List.mem_cons_of_mem x ha))]
    rfl

theorem ws_session_available (env : WsEnv) (request_id : ℕ) (wait_seconds : ℚ) :
    ws_session true env request_id wait_seconds =
      Except.ok (ws_session_core env request_id wait_seconds) := rfl

theorem run_ws_test_ok (envs : ℕ → WsEnv) (url : String) (n : ℕ)
    (w tmo : ℚ) (hw : String) :
    run_ws_test true envs url n w tmo hw = Except.ok (ws_batch envs n w hw) := by
  unfold run_ws_test ws_batch
  rw [mapM_ok_of_forall_ok _ _ (fun i => ws_session_core (envs i) i w)
    (fun i _ => ws_session_available (envs i) i w)]
  rfl

theorem ws_batch_length (envs : ℕ → WsEnv) (n : ℕ) (w : ℚ) (hw : String) :
    (ws_batch envs n w hw).length = n := by
  simp [ws_batch]

theorem ws_batch_getElem (envs : ℕ → WsEnv) (n : ℕ) (w : ℚ) (hw : String)
    (i : ℕ) (hi : i < n) :
    (ws_batch envs n w hw)[i]? =
      some { ws_session_core (envs i) i w with batch_size := n, hardware := hw } := by
  simp [ws_batch, List.getElem?_map, List.getElem?_range hi]

theorem run_single_test_ok (available : Bool) (cell : CellEnv) (url : String)
    (n : ℕ) (w : ℚ) (mode : String) (tmo : ℚ) (rep : ℕ) (hw : String)
    (hm : mode = "ws" → available = true) :
    run_single_test available cell url n w mode tmo rep hw =
      Except.ok (compute_summary (cellRecords cell url n w tmo mode hw)
        mode url n w rep cell.wallTime hw) := by
  unfold run_single_test cellRecords
  by_cases hmode : mode = "ws"
  · rw [if_pos hmode, if_pos hmode]
    have hav := hm hmode
    subst hav
    rw [if_neg (by simp), run_ws_test_ok]
    rfl
  · rw [if_neg hmode, if_neg hmode]
    rfl

/-! ### Grid sweep lemmas -/

theorem flatten_length_const {α : Type} (L : List (List α)) (c : ℕ)
    (h : ∀ l ∈ L, l.length = c) : L.flatten.length = L.length * c := by
  induction L with
  | nil => simp
  | cons x xs ih =>
    rw [List.flatten_cons, List.length_append,
      ih (fun l hl => h l (List.mem_cons_of_mem x hl)),
      h x (List.mem_cons_self x xs), List.length_cons]
    ring

theorem run_grid_sweep_ok (available : Bool) (cells : ℕ → ℚ → ℕ → CellEnv)
    (url : String) (rg : List ℕ) (wg : List ℚ) (mode : String) (tmo : ℚ)
    (reps : ℕ) (hw : String) (hm : mode = "ws" → available = true) :
    run_grid_sweep available cells url rg wg mode tmo reps hw =
      Except.ok ((rg.map (fun n =>
        (wg.map (fun w =>
          ((List.range reps).map (fun i => i + 1)).map (fun rep =>
            compute_summary (cellRecords (cells n w rep) url n w tmo mode hw)
              mode url n w rep (cells n w rep).wallTime hw))).flatten)).flatten) := by
  unfold run_grid_sweep
  have houter : ∀ n ∈ rg,
      (do
        let inner ← wg.mapM (fun w =>
          ((List.range reps).map (fun i => i + 1)).mapM (fun rep =>
            run_single_test available (cells n w rep) url n w mode tmo rep hw))
        return inner.flatten : Except PyErr (List RunSummary)) =
      Except.ok ((wg.map (fun w =>
        ((List.range reps).map (fun i => i + 1)).map (fun rep =>
          compute_summary (cellRecords (cells n w rep) url n w tmo mode hw)
            mode url n w rep (cells n w rep).wallTime hw))).flatten) := by
    intro n _
    rw [mapM_ok_of_forall_ok wg _ (fun w =>
      ((List.range reps).map (fun i => i + 1)).map (fun rep =>
        compute_summary (cellRecords (cells n w rep) url n w tmo mode hw)
          mode url n w rep (cells n w rep).wallTime hw))
      (fun w _ => mapM_ok_of_forall_ok _ _ _
        (fun rep _ => run_single_test_ok available (cells n w rep) url n w mode tmo rep hw hm))]
    rfl
  rw [mapM_ok_of_forall_ok rg _ _ houter]
  rfl

theorem compute_summary_config (results : List SessionResult) (mode url : String)
    (n : ℕ) (w : ℚ) (rep : ℕ) (wt : ℚ) (hw : String) :
    ((compute_summary results mode url n w rep wt hw).num_requests,
      (compute_summary results mode url n w rep wt hw).wait_seconds,
      (compute_summary results mode url n w rep wt hw).repetition) = (n, w, rep) := by
  rw [compute_summary_fields]

/-! ### Aggregator per-field lemmas -/

theorem compute_summary_successful (results : List SessionResult) (mode url : String)
    (n : ℕ) (w : ℚ) (rep : ℕ) (wt : ℚ) (hw : String) :
    (compute_summary results mode url n w rep wt hw).successful =
      (successfulOf results).length := by
  rw [compute_summary_fields]

theorem compute_summary_failed (results : List SessionResult) (mode url : String)
    (n : ℕ) (w : ℚ) (rep : ℕ) (wt : ℚ) (hw : String) :
    (compute_summary results mode url n w rep wt hw).failed =
      (failedOf results).length := by
  rw [compute_summary_fields]

theorem compute_summary_error_rate (results : List SessionResult) (mode url : String)
    (n : ℕ) (w : ℚ) (rep : ℕ) (wt : ℚ) (hw : String) :
    (compute_summary results mode url n w rep wt hw).error_rate =
      if results.isEmpty then 0
      else ((failedOf results).length : ℚ) / (results.length : ℚ) := by
  rw [compute_summary_fields]

theorem compute_summary_rps (results : List SessionResult) (mode url : String)
    (n : ℕ) (w : ℚ) (rep : ℕ) (wt : ℚ) (hw : String) :
    (compute_summary results mode url n w rep wt hw).requests_per_second =
      if (successfulOf results).isEmpty then 0
      else if 0 < wt then ((successfulOf results).length : ℚ) / wt else 0 := by
  rw [compute_summary_fields]

theorem compute_summary_eff (results : List SessionResult) (mode url : String)
    (n : ℕ) (w : ℚ) (rep : ℕ) (wt : ℚ) (hw : String) :
    (compute_summary results mode url n w rep wt hw).effective_concurrency =
      if (successfulOf results).isEmpty then 0
      else if 0 < wt then ((n : ℚ) * w) / wt else 0 := by
  rw [compute_summary_fields]

theorem compute_summary_connect_fields (results : List SessionResult) (mode url : String)
    (n : ℕ) (w : ℚ) (rep : ℕ) (wt : ℚ) (hw : String) :
    (compute_summary results mode url n w rep wt hw).connect_p50 =
      (if (connectTimes results).isEmpty then 0 else percentile (connectTimes results) 50) ∧
    (compute_summary results mode url n w rep wt hw).connect_p95 =
      (if (connectTimes results).isEmpty then 0 else percentile (connectTimes results) 95) ∧
    (compute_summary results mode url n w rep wt hw).connect_p99 =
      (if (connectTimes results).isEmpty then 0 else percentile (connectTimes results) 99) := by
  rw [compute_summary_fields]
  by_cases hS : (successfulOf results).isEmpty
  · have hct : connectTimes results = [] :=
      connectTimes_of_no_success results (List.isEmpty_iff.1 hS)
    refine ⟨?_, ?_, ?_⟩ <;> (dsimp only; rw [if_pos hS, hct]; rfl)
  · refine ⟨?_, ?_, ?_⟩ <;> (dsimp only; rw [if_neg hS])

theorem compute_summary_reset_fields (results : List SessionResult) (mode url : String)
    (n : ℕ) (w : ℚ) (rep : ℕ) (wt : ℚ) (hw : String) :
    (compute_summary results mode url n w rep wt hw).reset_p50 =
      (if (resetTimes results).isEmpty then 0 else percentile (resetTimes results) 50) ∧
    (compute_summary results mode url n w rep wt hw).reset_p95 =
      (if (resetTimes results).isEmpty then 0 else percentile (resetTimes results) 95) ∧
    (compute_summary results mode url n w rep wt hw).reset_p99 =
      (if (resetTimes results).isEmpty then 0 else percentile (resetTimes results) 99) := by
  rw [compute_summary_fields]
  by_cases hS : (successfulOf results).isEmpty
  · have hct : resetTimes results = [] :=
      resetTimes_of_no_success results (List.isEmpty_iff.1 hS)
    refine ⟨?_, ?_, ?_⟩ <;> (dsimp only; rw [if_pos hS, hct]; rfl)
  · refine ⟨?_, ?_, ?_⟩ <;> (dsimp only; rw [if_neg hS])

theorem compute_summary_step_fields (results : List SessionResult) (mode url : String)
    (n : ℕ) (w : ℚ) (rep : ℕ) (wt : ℚ) (hw : String) :
    (compute_summary results mode url n w rep wt hw).step_p50 =
      (if (stepTimes results).isEmpty then 0 else percentile (stepTimes results) 50) ∧
    (compute_summary results mode url n w rep wt hw).step_p95 =
      (if (stepTimes results).isEmpty then 0 else percentile (stepTimes results) 95) ∧
    (compute_summary results mode url n w rep wt hw).step_p99 =
      (if (stepTimes results).isEmpty then 0 else percentile (stepTimes results) 99) := by
  rw [compute_summary_fields]
  by_cases hS : (successfulOf results).isEmpty
  · have hct : stepTimes results = [] :=
      stepTimes_of_no_success results (List.isEmpty_iff.1 hS)
    refine ⟨?_, ?_, ?_⟩ <;> (dsimp only; rw [if_pos hS, hct]; rfl)
  · refine ⟨?_, ?_, ?_⟩ <;> (dsimp only; rw [if_neg hS])

theorem compute_summary_total_fields (results : List SessionResult) (mode url : String)
    (n : ℕ) (w : ℚ) (rep : ℕ) (wt : ℚ) (hw : String) :
    (compute_summary results mode url n w rep wt hw).total_p50 =
      (if (totalTimes results).isEmpty then 0 else percentile (totalTimes results) 50) ∧
    (compute_summary results mode url n w rep wt hw).total_p90 =
      (if (totalTimes results).isEmpty then 0 else percentile (totalTimes results) 90) ∧
    (compute_summary results mode url n w rep wt hw).total_p95 =
      (if (totalTimes results).isEmpty then 0 else percentile (totalTimes results) 95) ∧
    (compute_summary results mode url n w rep wt hw).total_p99 =
      (if (totalTimes results).isEmpty then 0 else percentile (totalTimes results) 99) := by
  rw [compute_summary_fields]
  by_cases hS : (successfulOf results).isEmpty
  · have hct : totalTimes results = [] :=
      totalTimes_of_no_success results (List.isEmpty_iff.1 hS)
    refine ⟨?_, ?_, ?_, ?_⟩ <;> (dsimp only; rw [if_pos hS, hct]; rfl)
  · refine ⟨?_, ?_, ?_, ?_⟩ <;> (dsimp only; rw [if_neg hS])

theorem successfulOf_eq_nil_of_all_failed (results : List SessionResult)
    (h : ∀ r ∈ results, r.success = false) : successfulOf results = [] := by
  unfold successfulOf
  rw [List.filter_eq_nil_iff]
  intro a ha
  simp [h a ha]

/-! ### Claim theorems -/

/-- C1: `percentile` implements linearly-interpolated order statistics:
on every sample and every `p ∈ [0,100]` it agrees with the spec formula
(sort ascending, rank `k = (n-1)·p/100`, `f = floor k`,
`c = min (f+1) (n-1)`, interpolate); consequently `percentile data 0` is the
minimum and `percentile data 100` the maximum of a non-empty sample,
`percentile [1,2,3,4,5] 50 = 3`, and `percentile [] p = 0` for every `p`. -/
theorem claim_C1_percentile_formula :
    (∀ (data : List ℚ) (p : ℚ), 0 ≤ p → p ≤ 100 →
      percentile data p = percentileSpec data p) ∧
    (∀ data : List ℚ, data ≠ [] →
      percentile data 0 = pyMin data ∧ percentile data 100 = pyMax data) ∧
    percentile [1, 2, 3, 4, 5] 50 = 3 ∧
    (∀ p : ℚ, percentile [] p = 0) := by
  refine ⟨fun data p h0 _ => percentile_eq_spec data p h0,
    fun data h => ⟨percentile_zero data h, percentile_hundred data h⟩,
    percentile_example, percentile_nil⟩

theorem claim_C1_percentile_formula_witness :
    percentile [2, 1] 0 = pyMin [2, 1] ∧
    percentile [2, 1] 100 = pyMax [2, 1] ∧
    percentile [] 7 = 0 ∧
    percentile [2, 1] 50 = percentileSpec [2, 1] 50 :=
  ⟨(claim_C1_percentile_formula.2.1 [2, 1] (by decide)).1,
   (claim_C1_percentile_formula.2.1 [2, 1] (by decide)).2,
   claim_C1_percentile_formula.2.2.2 7,
   claim_C1_percentile_formula.1 [2, 1] 50 (by decide) (by decide)⟩

/-- C10: under the precondition that the sample is non-empty and
`0 ≤ p ≤ 100`, both list indexings of `percentile` (`sorted_data[f]` and
`sorted_data[c]`) are within bounds — a precondition which is needed, since
for `p > 100` the index `f` can reach the list length — and the returned
value lies between the sample minimum and maximum. -/
theorem claim_C10_percentile_safety :
    (∀ (data : List ℚ) (p : ℚ), data ≠ [] → 0 ≤ p → p ≤ 100 →
      percentileInBounds data p ∧
      pyMin data ≤ percentile data p ∧ percentile data p ≤ pyMax data) ∧
    (∃ (data : List ℚ) (p : ℚ), 100 < p ∧ ¬ percentileInBounds data p) := by
  refine ⟨fun data p hne h0 h1 =>
    ⟨percentile_bounds_ok data p hne h0 h1,
     (percentile_between data p hne h0 h1).1,
     (percentile_between data p hne h0 h1).2⟩,
    ⟨[0, 1], 200, by norm_num, percentile_oob_example⟩⟩

theorem claim_C10_percentile_safety_witness :
    percentileInBounds [3, 1, 2] 95 ∧
    pyMin [3, 1, 2] ≤ percentile [3, 1, 2] 95 ∧
    percentile [3, 1, 2] 95 ≤ pyMax [3, 1, 2] :=
  claim_C10_percentile_safety.1 [3, 1, 2] 95 (by decide) (by decide) (by decide)

/-- C8: `percentile` is monotone in `p` on `[0,100]` over any fixed sample,
and consequently every percentile field group of a summary is
non-decreasing in its percentile index (`p50 ≤ p95 ≤ p99` for the connect,
reset and step phases, `p50 ≤ p90 ≤ p95 ≤ p99` for total latency). -/
theorem claim_C8_percentile_monotone :
    (∀ (data : List ℚ) (p1 p2 : ℚ), 0 ≤ p1 → p1 ≤ p2 → p2 ≤ 100 →
      percentile data p1 ≤ percentile data p2) ∧
    (∀ (results : List SessionResult) (mode url : String) (n : ℕ) (w : ℚ)
        (rep : ℕ) (wt : ℚ) (hw : String),
      (compute_summary results mode url n w rep wt hw).connect_p50 ≤
        (compute_summary results mode url n w rep wt hw).connect_p95 ∧
      (compute_summary results mode url n w rep wt hw).connect_p95 ≤
        (compute_summary results mode url n w rep wt hw).connect_p99 ∧
      (compute_summary results mode url n w rep wt hw).reset_p50 ≤
        (compute_summary results mode url n w rep wt hw).reset_p95 ∧
      (compute_summary results mode url n w rep wt hw).reset_p95 ≤
        (compute_summary results mode url n w rep wt hw).reset_p99 ∧
      (compute_summary results mode url n w rep wt hw).step_p50 ≤
        (compute_summary results mode url n w rep wt hw).step_p95 ∧
      (compute_summary results mode url n w rep wt hw).step_p95 ≤
        (compute_summary results mode url n w rep wt hw).step_p99 ∧
      (compute_summary results mode url n w rep wt hw).total_p50 ≤
        (compute_summary results mode url n w rep wt hw).total_p90 ∧
      (compute_summary results mode url n w rep wt hw).total_p90 ≤
        (compute_summary results mode url n w rep wt hw).total_p95 ∧
      (compute_summary results mode url n w rep wt hw).total_p95 ≤
        (compute_summary results mode url n w rep wt hw).total_p99) := by
  constructor
  · exact percentile_mono
  · intro results mode url n w rep wt hw
    obtain ⟨hc50, hc95, hc99⟩ := compute_summary_connect_fields results mode url n w rep wt hw
    obtain ⟨hr50, hr95, hr99⟩ := compute_summary_reset_fields results mode url n w rep wt hw
    obtain ⟨hs50, hs95, hs99⟩ := compute_summary_step_fields results mode url n w rep wt hw
    obtain ⟨ht50, ht90, ht95, ht99⟩ := compute_summary_total_fields results mode url n w rep wt hw
    rw [hc50, hc95, hc99, hr50, hr95, hr99, hs50, hs95, hs99, ht50, ht90, ht95, ht99]
    refine ⟨?_, ?_, ?_, ?_, ?_, ?_, ?_, ?_, ?_⟩ <;> split_ifs <;>
      first
        | exact le_rfl
        | exact percentile_mono _ _ _ (by norm_num) (by norm_num) (by norm_num)

theorem claim_C8_percentile_monotone_witness :
    percentile [4, 2] 50 ≤ percentile [4, 2] 95 ∧
    (compute_summary [okRecordExample] "http" "u" 1 1 1 1 "hw").total_p50 ≤
      (compute_summary [okRecordExample] "http" "u" 1 1 1 1 "hw").total_p90 :=
  ⟨claim_C8_percentile_monotone.1 [4, 2] 50 95 (by decide) (by decide) (by decide),
   (claim_C8_percentile_monotone.2 [okRecordExample] "http" "u" 1 1 1 1 "hw").2.2.2.2.2.2.1⟩

/-- C2: for every record list the summary satisfies
`successful + failed = len(records)` (hence `= N` for any batch the batch
runner produced, under either transport), and
`error_rate = failed / (successful + failed)` on non-empty input, `0.0` on
empty input; in particular `error_rate ∈ [0,1]`. -/
theorem claim_C2_count_invariant :
    (∀ (results : List SessionResult) (mode url : String) (n : ℕ) (w : ℚ)
        (rep : ℕ) (wt : ℚ) (hw : String),
      (compute_summary results mode url n w rep wt hw).successful +
        (compute_summary results mode url n w rep wt hw).failed = results.length ∧
      (results ≠ [] →
        (compute_summary results mode url n w rep wt hw).error_rate =
          ((compute_summary results mode url n w rep wt hw).failed : ℚ) /
            (((compute_summary results mode url n w rep wt hw).successful : ℚ) +
              ((compute_summary results mode url n w rep wt hw).failed : ℚ))) ∧
      (results = [] →
        (compute_summary results mode url n w rep wt hw).error_rate = 0) ∧
      0 ≤ (compute_summary results mode url n w rep wt hw).error_rate ∧
      (compute_summary results mode url n w rep wt hw).error_rate ≤ 1) ∧
    (∀ (envs : ℕ → HttpEnv) (url2 : String) (n : ℕ) (w tmo : ℚ) (hw : String)
        (mode url : String) (rep : ℕ) (wt : ℚ) (hw2 : String),
      (compute_summary (run_http_test envs url2 n w tmo hw)
          mode url n w rep wt hw2).successful +
        (compute_summary (run_http_test envs url2 n w tmo hw)
          mode url n w rep wt hw2).failed = n) ∧
    (∀ (envs : ℕ → WsEnv) (url2 : String) (n : ℕ) (w tmo : ℚ) (hw : String)
        (rs : List SessionResult) (mode url : String) (rep : ℕ) (wt : ℚ)
        (hw2 : String),
      run_ws_test true envs url2 n w tmo hw = Except.ok rs →
      (compute_summary rs mode url n w rep wt hw2).successful +
        (compute_summary rs mode url n w rep wt hw2).failed = n) := by
  refine ⟨?_, ?_, ?_⟩
  · intro results mode url n w rep wt hw
    have hsum := successfulOf_add_failedOf results
    refine ⟨?_, ?_, ?_, ?_, ?_⟩
    · rw [compute_summary_successful, compute_summary_failed]
      exact hsum
    · intro hne
      rw [compute_summary_error_rate, compute_summary_successful, compute_summary_failed,
        if_neg (by simp [List.isEmpty_iff, hne])]
      have hcast : ((successfulOf results).length : ℚ) + ((failedOf results).length : ℚ)
          = (results.length : ℚ) := by exact_mod_cast hsum
      rw [hcast]
    · intro he
      subst he
      rw [compute_summary_error_rate]
      rfl
    · rw [compute_summary_error_rate]
      split_ifs
      · exact le_rfl
      · positivity
    · rw [compute_summary_error_rate]
      split_ifs with hcond
      · norm_num
      · have hne : results ≠ [] := by
          intro he; subst he; exact hcond rfl
        have hlen : 0 < results.length := List.length_pos.2 hne
        have hle : (failedOf results).length ≤ results.length := by
          unfold failedOf
          exact List.length_filter_le _ _
        rw [div_le_one (by exact_mod_cast hlen)]
        exact_mod_cast hle
  · intro envs url2 n w tmo hw mode url rep wt hw2
    rw [compute_summary_successful, compute_summary_failed, successfulOf_add_failedOf,
      run_http_test_length]
  · intro envs url2 n w tmo hw rs mode url rep wt hw2 hok
    rw [run_ws_test_ok] at hok
    injection hok with h2
    subst h2
    rw [compute_summary_successful, compute_summary_failed, successfulOf_add_failedOf,
      ws_batch_length]

theorem claim_C2_count_invariant_witness :
    (compute_summary [failedRecordExample, okRecordExample] "http" "u" 2 1 1 1 "hw").successful +
      (compute_summary [failedRecordExample, okRecordExample] "http" "u" 2 1 1 1 "hw").failed = 2 ∧
    (compute_summary [] "http" "u" 0 1 1 1 "hw").error_rate = 0 :=
  ⟨(claim_C2_count_invariant.1 [failedRecordExample, okRecordExample]
      "http" "u" 2 1 1 1 "hw").1,
   (claim_C2_count_invariant.1 [] "http" "u" 0 1 1 1 "hw").2.2.1 rfl⟩

/-- C5: when no record in the batch is successful (including the empty
batch), `compute_summary` still totally returns a summary whose
latency-statistic, throughput and distribution-cardinality fields are all
zero (the early return happens before any division or percentile call). -/
theorem claim_C5_all_failed_zero :
    ∀ (results : List SessionResult) (mode url : String) (n : ℕ) (w : ℚ)
      (rep : ℕ) (wt : ℚ) (hw : String),
      (∀ r ∈ results, r.success = false) →
      (compute_summary results mode url n w rep wt hw).connect_p50 = 0 ∧
      (compute_summary results mode url n w rep wt hw).connect_p95 = 0 ∧
      (compute_summary results mode url n w rep wt hw).connect_p99 = 0 ∧
      (compute_summary results mode url n w rep wt hw).reset_p50 = 0 ∧
      (compute_summary results mode url n w rep wt hw).reset_p95 = 0 ∧
      (compute_summary results mode url n w rep wt hw).reset_p99 = 0 ∧
      (compute_summary results mode url n w rep wt hw).step_p50 = 0 ∧
      (compute_summary results mode url n w rep wt hw).step_p95 = 0 ∧
      (compute_summary results mode url n w rep wt hw).step_p99 = 0 ∧
      (compute_summary results mode url n w rep wt hw).total_min = 0 ∧
      (compute_summary results mode url n w rep wt hw).total_max = 0 ∧
      (compute_summary results mode url n w rep wt hw).total_avg = 0 ∧
      (compute_summary results mode url n w rep wt hw).total_p50 = 0 ∧
      (compute_summary results mode url n w rep wt hw).total_p90 = 0 ∧
      (compute_summary results mode url n w rep wt hw).total_p95 = 0 ∧
      (compute_summary results mode url n w rep wt hw).total_p99 = 0 ∧
      (compute_summary results mode url n w rep wt hw).requests_per_second = 0 ∧
      (compute_summary results mode url n w rep wt hw).effective_concurrency = 0 ∧
      (compute_summary results mode url n w rep wt hw).unique_pids = 0 ∧
      (compute_summary results mode url n w rep wt hw).unique_sessions = 0 ∧
      (compute_summary results mode url n w rep wt hw).unique_hosts = 0 := by
  intro results mode url n w rep wt hw h
  have hnil := successfulOf_eq_nil_of_all_failed results h
  have hS : (successfulOf results).isEmpty = true := by rw [hnil]; rfl
  simp [compute_summary_fields, hS]

theorem claim_C5_all_failed_zero_witness :
    (compute_summary [failedRecordExample] "http" "u" 1 1 1 1 "hw").requests_per_second = 0 ∧
    (compute_summary [failedRecordExample] "http" "u" 1 1 1 1 "hw").total_p99 = 0 :=
  ⟨(claim_C5_all_failed_zero [failedRecordExample] "http" "u" 1 1 1 1 "hw"
      (by decide)).2.2.2.2.2.2.2.2.2.2.2.2.2.2.2.2.1,
   (claim_C5_all_failed_zero [failedRecordExample] "http" "u" 1 1 1 1 "hw"
      (by decide)).2.2.2.2.2.2.2.2.2.2.2.2.2.2.2.1⟩

/-- C7, counterexample: the claim "`effective_concurrency` always equals
`(N × waitSeconds) / totalWallTime`" fails on an all-failed batch — with
one failed record, `N = 1`, `wait = 1`, `wallTime = 1` the code returns
`0.0` while the formula gives `1.0` (the early return for zero successes
skips the throughput block). -/
theorem claim_C7_throughput_counterexample :
    ¬ ((compute_summary [failedRecordExample] "http" "u" 1 1 1 1 "hw").effective_concurrency
        = (((1 : ℕ) : ℚ) * (1 : ℚ)) / (1 : ℚ)) := by
  have hnil : successfulOf [failedRecordExample] = [] := by decide
  rw [compute_summary_eff, if_pos (by rw [hnil]; rfl)]
  norm_num

/-- C7, amended: whenever the wall time is positive,
`requests_per_second = successfulCount / totalWallTime`; and whenever in
addition at least one record succeeded,
`effective_concurrency = (N × waitSeconds) / totalWallTime` (with the
requested concurrency `N`, not the successful count); in the all-failed
case `effective_concurrency` stays `0.0`. -/
theorem claim_C7_throughput_amended :
    ∀ (results : List SessionResult) (mode url : String) (n : ℕ) (w : ℚ)
      (rep : ℕ) (wt : ℚ) (hw : String), 0 < wt →
      (compute_summary results mode url n w rep wt hw).requests_per_second =
        ((successfulOf results).length : ℚ) / wt ∧
      (successfulOf results ≠ [] →
        (compute_summary results mode url n w rep wt hw).effective_concurrency =
          ((n : ℚ) * w) / wt) := by
  intro results mode url n w rep wt hw hwt
  constructor
  · rw [compute_summary_rps]
    split_ifs with hS
    · rw [List.isEmpty_iff.1 hS]
      simp
    · rfl
  · intro hne
    rw [compute_summary_eff, if_neg (by simp [List.isEmpty_iff, hne]), if_pos hwt]

theorem claim_C7_throughput_amended_witness :
    (0 : ℚ) < 2 ∧
    ((compute_summary [okRecordExample] "http" "u" 4 3 1 2 "hw").requests_per_second =
      ((successfulOf [okRecordExample]).length : ℚ) / 2 ∧
    (successfulOf [okRecordExample] ≠ [] →
      (compute_summary [okRecordExample] "http" "u" 4 3 1 2 "hw").effective_concurrency =
        (((4 : ℕ) : ℚ) * (3 : ℚ)) / 2)) :=
  ⟨by decide, claim_C7_throughput_amended [okRecordExample] "http" "u" 4 3 1 2 "hw" (by decide)⟩

/-- C3: each phase percentile triplet is computed only over the successful
records whose latency for that phase is strictly positive (the `…Times`
lists), and consequently a summary computed over any request-response
(http) batch — whose records all carry `connect_latency = 0` — has
`connect_p50 = connect_p95 = connect_p99 = 0` regardless of record count. -/
theorem claim_C3_phase_exclusion :
    (∀ (results : List SessionResult) (mode url : String) (n : ℕ) (w : ℚ)
        (rep : ℕ) (wt : ℚ) (hw : String),
      (compute_summary results mode url n w rep wt hw).connect_p50 =
        (if (connectTimes results).isEmpty then 0
          else percentile (connectTimes results) 50) ∧
      (compute_summary results mode url n w rep wt hw).connect_p95 =
        (if (connectTimes results).isEmpty then 0
          else percentile (connectTimes results) 95) ∧
      (compute_summary results mode url n w rep wt hw).connect_p99 =
        (if (connectTimes results).isEmpty then 0
          else percentile (connectTimes results) 99) ∧
      (compute_summary results mode url n w rep wt hw).reset_p50 =
        (if (resetTimes results).isEmpty then 0
          else percentile (resetTimes results) 50) ∧
      (compute_summary results mode url n w rep wt hw).reset_p95 =
        (if (resetTimes results).isEmpty then 0
          else percentile (resetTimes results) 95) ∧
      (compute_summary results mode url n w rep wt hw).reset_p99 =
        (if (resetTimes results).isEmpty then 0
          else percentile (resetTimes results) 99) ∧
      (compute_summary results mode url n w rep wt hw).step_p50 =
        (if (stepTimes results).isEmpty then 0
          else percentile (stepTimes results) 50) ∧
      (compute_summary results mode url n w rep wt hw).step_p95 =
        (if (stepTimes results).isEmpty then 0
          else percentile (stepTimes results) 95) ∧
      (compute_summary results mode url n w rep wt hw).step_p99 =
        (if (stepTimes results).isEmpty then 0
          else percentile (stepTimes results) 99)) ∧
    (∀ (envs : ℕ → HttpEnv) (url2 : String) (n : ℕ) (w tmo : ℚ) (hw : String)
        (mode url : String) (rep : ℕ) (wt : ℚ) (hw2 : String),
      (compute_summary (run_http_test envs url2 n w tmo hw)
        mode url n w rep wt hw2).connect_p50 = 0 ∧
      (compute_summary (run_http_test envs url2 n w tmo hw)
        mode url n w rep wt hw2).connect_p95 = 0 ∧
      (compute_summary (run_http_test envs url2 n w tmo hw)
        mode url n w rep wt hw2).connect_p99 = 0) := by
  constructor
  · intro results mode url n w rep wt hw
    obtain ⟨hc50, hc95, hc99⟩ := compute_summary_connect_fields results mode url n w rep wt hw
    obtain ⟨hr50, hr95, hr99⟩ := compute_summary_reset_fields results mode url n w rep wt hw
    obtain ⟨hs50, hs95, hs99⟩ := compute_summary_step_fields results mode url n w rep wt hw
    exact ⟨hc50, hc95, hc99, hr50, hr95, hr99, hs50, hs95, hs99⟩
  · intro envs url2 n w tmo hw mode url rep wt hw2
    have hct := connectTimes_run_http_test envs url2 n w tmo hw
    obtain ⟨h50, h95, h99⟩ := compute_summary_connect_fields
      (run_http_test envs url2 n w tmo hw) mode url n w rep wt hw2
    rw [h50, h95, h99, hct]
    exact ⟨rfl, rfl, rfl⟩

theorem claim_C3_phase_exclusion_witness :
    (compute_summary (run_http_test (fun _ => httpEnvFailExample) "u" 3 1 1 "hw")
      "http" "u" 3 1 1 1 "hw").connect_p50 = 0 :=
  (claim_C3_phase_exclusion.2 (fun _ => httpEnvFailExample) "u" 3 1 1 "hw"
    "http" "u" 1 1 "hw").1

/-- C4: the session drivers convert every exception arising during a
session into a returned `SessionResult` instead of raising (`ws_session`
returns a record for every environment once the websockets module is
available); on any failure the record has `success = false`, a non-empty
error classification (the raising exception's class name) and a populated
message, `total_latency` equal to the clock reading at the failure point
minus the session start reading, and all response-echo fields at their
zero/empty defaults. -/
theorem claim_C4_driver_error_capture :
    (∀ (env : HttpEnv) (rid : ℕ) (w : ℚ),
      (env.resetOk = false ∨ env.stepOk = false) →
      env.resetErr.name ≠ "" → env.stepErr.name ≠ "" →
      (http_session env rid w).success = false ∧
      (∃ s, (http_session env rid w).error_type = some s ∧ s ≠ "") ∧
      (http_session env rid w).error_message.isSome = true ∧
      (http_session env rid w).total_latency = env.times.tFinal - env.times.t0 ∧
      (http_session env rid w).waited_seconds = 0 ∧
      (http_session env rid w).pid = 0 ∧
      (http_session env rid w).session_hash = "" ∧
      (http_session env rid w).host_url = "") ∧
    (∀ (env : WsEnv) (rid : ℕ) (w : ℚ),
      ws_session true env rid w = Except.ok (ws_session_core env rid w)) ∧
    (∀ (env : WsEnv) (rid : ℕ) (w : ℚ),
      (env.connectOk = false ∨ env.resetRecvOk = false ∨
        env.resetResp.type = "error" ∨ env.stepRecvOk = false ∨
        env.stepResp.type = "error" ∨ env.closeOk = false) →
      env.connectErr.name ≠ "" → env.resetRecvErr.name ≠ "" →
      env.stepRecvErr.name ≠ "" → env.closeErr.name ≠ "" →
      (ws_session_core env rid w).success = false ∧
      (∃ s, (ws_session_core env rid w).error_type = some s ∧ s ≠ "") ∧
      (ws_session_core env rid w).error_message.isSome = true ∧
      (ws_session_core env rid w).total_latency = env.times.tFinal - env.times.t0 ∧
      (ws_session_core env rid w).waited_seconds = 0 ∧
      (ws_session_core env rid w).pid = 0 ∧
      (ws_session_core env rid w).session_hash = "" ∧
      (ws_session_core env rid w).host_url = "") := by
  refine ⟨?_, fun env rid w => ws_session_available env rid w, ?_⟩
  · intro env rid w hfail h1 h2
    unfold http_session httpFailure
    by_cases hr : env.resetOk = false
    · rw [if_pos hr]
      exact ⟨rfl, ⟨env.resetErr.name, rfl, h1⟩, rfl, rfl, rfl, rfl, rfl, rfl⟩
    · have hs : env.stepOk = false := by
        rcases hfail with h | h
        · exact absurd h hr
        · exact h
      rw [if_neg hr, if_pos hs]
      exact ⟨rfl, ⟨env.stepErr.name, rfl, h2⟩, rfl, rfl, rfl, rfl, rfl, rfl⟩
  · intro env rid w hfail h1 h2 h3 h4
    unfold ws_session_core wsFailure
    by_cases c1 : env.connectOk = false
    · rw [if_pos c1]
      exact ⟨rfl, ⟨env.connectErr.name, rfl, h1⟩, rfl, rfl, rfl, rfl, rfl, rfl⟩
    · rw [if_neg c1]
      by_cases c2 : env.resetRecvOk = false
      · rw [if_pos c2]
        exact ⟨rfl, ⟨env.resetRecvErr.name, rfl, h2⟩, rfl, rfl, rfl, rfl, rfl, rfl⟩
      · rw [if_neg c2]
        by_cases c3 : env.resetResp.type = "error"
        · rw [if_pos c3]
          exact ⟨rfl, ⟨"RuntimeError", rfl, by decide⟩, rfl, rfl, rfl, rfl, rfl, rfl⟩
        · rw [if_neg c3]
          by_cases c4 : env.stepRecvOk = false
          · rw [if_pos c4]
            exact ⟨rfl, ⟨env.stepRecvErr.name, rfl, h3⟩, rfl, rfl, rfl, rfl, rfl, rfl⟩
          · rw [if_neg c4]
            by_cases c5 : env.stepResp.type = "error"
            · rw [if_pos c5]
              exact ⟨rfl, ⟨"RuntimeError", rfl, by decide⟩, rfl, rfl, rfl, rfl, rfl, rfl⟩
            · rw [if_neg c5]
              by_cases c6 : env.closeOk = false
              · rw [if_pos c6]
                exact ⟨rfl, ⟨env.closeErr.name, rfl, h4⟩, rfl, rfl, rfl, rfl, rfl, rfl⟩
              · exfalso
                rcases hfail with h | h | h | h | h | h
                · exact c1 h
                · exact c2 h
                · exact c3 h
                · exact c4 h
                · exact c5 h
                · exact c6 h

theorem claim_C4_driver_error_capture_witness :
    (http_session httpEnvFailExample 0 1).success = false ∧
    (ws_session_core wsEnvFailExample 0 1).success = false :=
  ⟨(claim_C4_driver_error_capture.1 httpEnvFailExample 0 1 (Or.inl rfl)
      (by decide) (by decide)).1,
   (claim_C4_driver_error_capture.2.2 wsEnvFailExample 0 1 (Or.inl rfl)
      (by decide) (by decide) (by decide) (by decide)).1⟩

/-- C9: for either transport the batch runner returns exactly `N` records
(no record is dropped on individual failure), and the post-collection
stamping rewrites every record's `batch_size` to `N` and `hardware` to the
configured tier while leaving all other fields of the record unchanged
(the `{ r with … }` update). -/
theorem claim_C9_batch_stamp :
    (∀ (envs : ℕ → HttpEnv) (url : String) (n : ℕ) (w tmo : ℚ) (hw : String),
      (run_http_test envs url n w tmo hw).length = n ∧
      (∀ i, i < n → (run_http_test envs url n w tmo hw)[i]? =
        some { http_session (envs i) i w with batch_size := n, hardware := hw })) ∧
    (∀ (envs : ℕ → WsEnv) (url : String) (n : ℕ) (w tmo : ℚ) (hw : String),
      run_ws_test true envs url n w tmo hw = Except.ok (ws_batch envs n w hw) ∧
      (ws_batch envs n w hw).length = n ∧
      (∀ i, i < n → (ws_batch envs n w hw)[i]? =
        some { ws_session_core (envs i) i w with batch_size := n, hardware := hw })) := by
  constructor
  · intro envs url n w tmo hw
    exact ⟨run_http_test_length envs url n w tmo hw,
      fun i hi => run_http_test_getElem envs url n w tmo hw i hi⟩
  · intro envs url n w tmo hw
    exact ⟨run_ws_test_ok envs url n w tmo hw,
      ws_batch_length envs n w hw,
      fun i hi => ws_batch_getElem envs n w hw i hi⟩

theorem claim_C9_batch_stamp_witness :
    (run_http_test (fun _ => httpEnvFailExample) "u" 2 1 1 "hw").length = 2 ∧
    (run_http_test (fun _ => httpEnvFailExample) "u" 2 1 1 "hw")[0]? =
      some { http_session httpEnvFailExample 0 1 with batch_size := 2, hardware := "hw" } :=
  ⟨(claim_C9_batch_stamp.1 (fun _ => httpEnvFailExample) "u" 2 1 1 "hw").1,
   (claim_C9_batch_stamp.1 (fun _ => httpEnvFailExample) "u" 2 1 1 "hw").2 0 (by decide)⟩

/-- C6: on a working transport the grid sweep returns exactly
`len(levels) × len(waits) × reps` summaries, in the nested iteration order
concurrency → wait → repetition, each stamped with its cell's
`(num_requests, wait_seconds, repetition)`; e.g. levels `[1,2]`, waits
`[0.1,0.5]`, `reps = 2` give exactly the eight cells
`(1,0.1,1),(1,0.1,2),(1,0.5,1),(1,0.5,2),(2,0.1,1),(2,0.1,2),(2,0.5,1),(2,0.5,2)`
in that order. -/
theorem claim_C6_grid_order :
    (∀ (available : Bool) (cells : ℕ → ℚ → ℕ → CellEnv) (url : String)
        (rg : List ℕ) (wg : List ℚ) (mode : String) (tmo : ℚ) (reps : ℕ)
        (hw : String),
      (mode = "ws" → available = true) →
      ∃ L, run_grid_sweep available cells url rg wg mode tmo reps hw = Except.ok L ∧
        L.length = rg.length * wg.length * reps ∧
        L.map (fun s => (s.num_requests, s.wait_seconds, s.repetition)) =
          rg.flatMap (fun n => wg.flatMap (fun w =>
            ((List.range reps).map (fun i => i + 1)).map (fun rep => (n, w, rep))))) ∧
    (run_grid_sweep false exampleCells "u" [1, 2] [0.1, 0.5] "http" 1 2 "hw").map
        (fun L => L.map (fun s => (s.num_requests, s.wait_seconds, s.repetition))) =
      Except.ok [(1, 0.1, 1), (1, 0.1, 2), (1, 0.5, 1), (1, 0.5, 2),
        (2, 0.1, 1), (2, 0.1, 2), (2, 0.5, 1), (2, 0.5, 2)] := by
  constructor
  · intro available cells url rg wg mode tmo reps hw hm
    refine ⟨_, run_grid_sweep_ok available cells url rg wg mode tmo reps hw hm, ?_, ?_⟩
    · have hA : ∀ nn, ∀ al ∈ wg.map (fun w =>
          ((List.range reps).map (fun i => i + 1)).map (fun rep =>
            compute_summary (cellRecords (cells nn w rep) url nn w tmo mode hw)
              mode url nn w rep (cells nn w rep).wallTime hw)), al.length = reps := by
        intro nn al hal
        obtain ⟨ww, hww, rfl⟩ := List.mem_map.1 hal
        rw [List.length_map, List.length_map, List.length_range]
      have hB : ∀ bl ∈ rg.map (fun n =>
          (wg.map (fun w =>
            ((List.range reps).map (fun i => i + 1)).map (fun rep =>
              compute_summary (cellRecords (cells n w rep) url n w tmo mode hw)
                mode url n w rep (cells n w rep).wallTime hw))).flatten),
          bl.length = wg.length * reps := by
        intro bl hbl
        obtain ⟨nn, hnn, rfl⟩ := List.mem_map.1 hbl
        rw [flatten_length_const _ reps (hA nn), List.length_map]
      rw [flatten_length_const _ (wg.length * reps) hB, List.length_map, mul_assoc]
    · have hInner : ∀ nn ww,
          List.map (fun s => (s.num_requests, s.wait_seconds, s.repetition))
            (((List.range reps).map (fun i => i + 1)).map (fun rep =>
              compute_summary (cellRecords (cells nn ww rep) url nn ww tmo mode hw)
                mode url nn ww rep (cells nn ww rep).wallTime hw)) =
          ((List.range reps).map (fun i => i + 1)).map (fun rep => (nn, ww, rep)) := by
        intro nn ww
        rw [List.map_map]
        apply List.map_congr_left
        intro rep _
        simp only [Function.comp]
        exact compute_summary_config (cellRecords (cells nn ww rep) url nn ww tmo mode hw)
          mode url nn ww rep (cells nn ww rep).wallTime hw
      have hMid : ∀ nn,
          List.map (fun s => (s.num_requests, s.wait_seconds, s.repetition))
            ((wg.map (fun w =>
              ((List.range reps).map (fun i => i + 1)).map (fun rep =>
                compute_summary (cellRecords (cells nn w rep) url nn w tmo mode hw)
                  mode url nn w rep (cells nn w rep).wallTime hw))).flatten) =
          wg.flatMap (fun w =>
            ((List.range reps).map (fun i => i + 1)).map (fun rep => (nn, w, rep))) := by
        intro nn
        rw [List.map_flatten, List.map_map, List.flatMap_def]
        congr 1
        apply List.map_congr_left
        intro ww _
        simp only [Function.comp]
        exact hInner nn ww
      rw [List.map_flatten, List.map_map, List.flatMap_def]
      congr 1
      apply List.map_congr_left
      intro nn _
      simp only [Function.comp]
      exact hMid nn
  · rfl

theorem claim_C6_grid_order_witness :
    ∃ L, run_grid_sweep false exampleCells "u" [1] [1] "http" 1 1 "hw" = Except.ok L ∧
      L.length = [1].length * ([1] : List ℚ).length * 1 ∧
      L.map (fun s => (s.num_requests, s.wait_seconds, s.repetition)) =
        [1].flatMap (fun n => ([1] : List ℚ).flatMap (fun w =>
          ((List.range 1).map (fun i => i + 1)).map (fun rep => (n, w, rep)))) :=
  claim_C6_grid_order.1 false exampleCells "u" [1] [1] "http" 1 1 "hw"
    (fun h => absurd h (by decide))
